import Mathlib

/-!
Shallow embedding of the Redux authentication store of this repository:
the action creators and action types (`src/store/auth/authActions.js`,
`authActionTypes.js`), the reducer (`src/store/auth/authReducer.js`), and
the saga orchestration layer (`src/store/auth/authSagas.js`), together
with an operational model of redux-saga's `takeLatest` combinator as used
by `onLogInStart` / `onRegisterStart`.

JS objects are modelled by structures; a JS field holding `null` or being
absent (`undefined`) is modelled by `Option`. In particular
`AuthState.registerSuccess` is `Option Bool`: `none` means the JS object
has no `registerSuccess` key at all (as in `INITIAL_STATE`), `some b`
means the key is present with boolean value `b`.
-/

namespace ReduxAuth

/-- Credentials payload `\x7bemail, password, firstName, lastName\x7d` as
assembled by the Register form; the LogIn form only fills `email` and
`password`. -/
structure Credentials where
  email : String
  password : String
  firstName : String
  lastName : String
deriving DecidableEq

/-- User object produced by the login capability:
`\x7btoken: response.data.accessToken, ...response.data.user\x7d`. -/
structure User where
  token : String
  email : String
  firstName : String
  lastName : String
deriving DecidableEq

/-- Error payloads are opaque; we model them as strings. -/
abbrev ErrorInfo := String

/-- The action union: one constructor per action creator of
`authActions.js`, plus `other` for any action whose type string matches
none of the `userActionTypes` cases (e.g. the store's own INIT action). -/
inductive Action where
  | logInStart (credentials : Credentials)
  | logInSuccess (user : User)
  | logInFailure (error : ErrorInfo)
  | registerStart (credentials : Credentials)
  | registerSuccess (credentials : Credentials)
  | registerFailure (error : ErrorInfo)
  | logOut
  | other
deriving DecidableEq

/-- The auth slice of the store state. `registerSuccess = none` models the
key being absent from the JS object (INITIAL_STATE declares only
`currentUser` and `error`). -/
structure AuthState where
  currentUser : Option User
  error : Option ErrorInfo
  registerSuccess : Option Bool
deriving DecidableEq

/-- `INITIAL_STATE = \x7bcurrentUser: null, error: null\x7d` — no
`registerSuccess` key. -/
def INITIAL_STATE : AuthState :=
  { currentUser := none, error := none, registerSuccess := none }

/-- The reducer of `authReducer.js`, case for case in source order. -/
def authReducer (state : AuthState) (action : Action) : AuthState :=
  match action with
  | Action.logInSuccess user =>
      { state with currentUser := some user, error := none }
  | Action.logInFailure e => { state with error := some e }
  | Action.registerFailure e => { state with error := some e }
  | Action.logOut => INITIAL_STATE
  | Action.registerSuccess _ => { state with registerSuccess := some true }
  | _ => state

/-- The JS reducer's default parameter `state = INITIAL_STATE`: calling it
with `undefined` (here `none`) substitutes the initial state. -/
def authReducerWithDefault (state : Option AuthState) (action : Action) : AuthState :=
  authReducer (state.getD INITIAL_STATE) action

/-- Reducer transition table as written in the spec (§4.1), kept as a
separate definition so it can be compared with `authReducer`. -/
def specReducerTable (state : AuthState) (action : Action) : AuthState :=
  match action with
  | Action.logInSuccess user =>
      { state with currentUser := some user, error := none }
  | Action.logInFailure e => { state with error := some e }
  | Action.registerFailure e => { state with error := some e }
  | Action.registerSuccess _ => { state with registerSuccess := some true }
  | Action.logOut => INITIAL_STATE
  | _ => state

/-! ## Saga layer

A saga body is modelled by the trace of effects it performs: capability
calls and `put`s of actions. The external capabilities (`axios.post` to
`/login` and `/register`) are parameters returning `Except`: `Except.error`
models the promise rejecting (the `catch` branch of the saga). -/

/-- One effect performed by a saga body. -/
inductive SagaOp where
  | callLogIn (email password : String)
  | callRegister (email password firstName lastName : String)
  | put (action : Action)
deriving DecidableEq

/-- The actions a trace dispatches via `put`. -/
def putsOf (trace : List SagaOp) : List Action :=
  trace.filterMap fun op =>
    match op with
    | SagaOp.put a => some a
    | _ => none

/-- The `(email, password)` arguments of the login-capability calls in a
trace. -/
def logInCallsOf (trace : List SagaOp) : List (String × String) :=
  trace.filterMap fun op =>
    match op with
    | SagaOp.callLogIn e p => some (e, p)
    | _ => none

/-- `logInWithCredentials`: call `logIn(email, password)`; on resolution
put `logInSuccess(user)`, on rejection (caught) put `logInFailure(error)`. -/
def logInWithCredentials (logInCap : String → String → Except ErrorInfo User)
    (email password : String) : List SagaOp :=
  SagaOp.callLogIn email password ::
    match logInCap email password with
    | Except.ok user => [SagaOp.put (Action.logInSuccess user)]
    | Except.error e => [SagaOp.put (Action.logInFailure e)]

/-- `registerWithCredentials`: call `register(...)`; on resolution put
`registerSuccess(\x7bemail, password, firstName, lastName\x7d)`, on
rejection (caught) put `registerFailure(error)`. -/
def registerWithCredentials
    (registerCap : String → String → String → String → Except ErrorInfo Unit)
    (c : Credentials) : List SagaOp :=
  SagaOp.callRegister c.email c.password c.firstName c.lastName ::
    match registerCap c.email c.password c.firstName c.lastName with
    | Except.ok _ =>
        [SagaOp.put (Action.registerSuccess
          { email := c.email, password := c.password
            firstName := c.firstName, lastName := c.lastName })]
    | Except.error e => [SagaOp.put (Action.registerFailure e)]

/-- `logInAfterRegister`: reacts to `REGISTER_SUCCESS` by running
`logInWithCredentials` on the payload's `email` and `password`. -/
def logInAfterRegister (logInCap : String → String → Except ErrorInfo User)
    (payload : Credentials) : List SagaOp :=
  logInWithCredentials logInCap payload.email payload.password

/-- Is the action a terminal action of the login lane? -/
def isLogInTerminal : Action → Bool
  | Action.logInSuccess _ => true
  | Action.logInFailure _ => true
  | _ => false

/-- Is the action a terminal action of the register lane? -/
def isRegisterTerminal : Action → Bool
  | Action.registerSuccess _ => true
  | Action.registerFailure _ => true
  | _ => false

/-! ## takeLatest lane model

`onLogInStart` / `onRegisterStart` each wrap a saga body in
`takeLatest(type, body)`: on each matching start action the previously
forked task (if still pending) is cancelled and a fresh task is forked;
a cancelled task never resumes past its suspension point, so it never
`put`s its terminal action. The only suspension point of both bodies is
the capability call, so a task is captured by the payload it was forked
with, and its completion carries the capability's result. -/

/-- State of one `takeLatest` lane: the pending task (its invocation id
and the start payload it was forked with), and the next fresh id. -/
structure LaneState (π : Type) where
  pending : Option (Nat × π)
  nextId : Nat

/-- Events visible to a lane: a matching start action being dispatched, or
the capability call of invocation `id` completing with result `r`. -/
inductive LaneEvent (π ρ : Type) where
  | start (p : π)
  | complete (id : Nat) (r : ρ)

/-- Lane before any start was dispatched. -/
def initLane {π : Type} : LaneState π :=
  { pending := none, nextId := 0 }

/-- One lane step. A start cancels the pending task (it is simply dropped:
it will never emit) and forks a fresh one. A completion emits the task's
terminal `put`s only if that task is still the pending one; a completion
of a cancelled (superseded) invocation emits nothing. -/
def laneStep {π ρ : Type} (handler : π → ρ → List Action)
    (s : LaneState π) (e : LaneEvent π ρ) : LaneState π × List Action :=
  match e with
  | LaneEvent.start p =>
      ({ pending := some (s.nextId, p), nextId := s.nextId + 1 }, [])
  | LaneEvent.complete id r =>
      match s.pending with
      | some (pid, p) =>
          if pid = id then ({ s with pending := none }, handler p r)
          else (s, [])
      | none => (s, [])

/-- Run a lane over a list of events, collecting every dispatched action. -/
def runLaneFrom {π ρ : Type} (handler : π → ρ → List Action)
    (s : LaneState π) : List (LaneEvent π ρ) → List Action
  | [] => []
  | e :: es =>
      (laneStep handler s e).2 ++ runLaneFrom handler (laneStep handler s e).1 es

/-- Run a lane from the initial state. -/
def runLane {π ρ : Type} (handler : π → ρ → List Action)
    (events : List (LaneEvent π ρ)) : List Action :=
  runLaneFrom handler initLane events

/-- Terminal `put`s of a login-lane task forked with payload `c` whose
capability call resolved to `r`. -/
def logInTerminalPuts (c : Credentials) (r : Except ErrorInfo User) : List Action :=
  putsOf (logInWithCredentials (fun _ _ => r) c.email c.password)

/-- Terminal `put`s of a register-lane task forked with payload `c` whose
capability call resolved to `r`. -/
def registerTerminalPuts (c : Credentials) (r : Except ErrorInfo Unit) : List Action :=
  putsOf (registerWithCredentials (fun _ _ _ _ => r) c)

/-! ## Concrete inputs used by scenarios and witnesses -/

/-- A sample user. -/
def sampleUser : User :=
  { token := "t1", email := "a@b.com", firstName := "A", lastName := "B" }

/-- A sample credentials payload. -/
def sampleCredentials : Credentials :=
  { email := "a@b.com", password := "x", firstName := "A", lastName := "B" }

/-- Credentials of the spec's register-failure scenario. -/
def c7Credentials : Credentials :=
  { email := "c@d.com", password := "y", firstName := "A", lastName := "B" }

/-- Register capability of the spec's register-failure scenario: always
fails with "duplicate email". -/
def c7RegisterCap : String → String → String → String → Except ErrorInfo Unit :=
  fun _ _ _ _ => Except.error "duplicate email"

/-- Final state of the spec's register-failure scenario: dispatch
`registerStart` (reducer default case), run the register saga against the
failing capability, fold its `put`s into the state. -/
def c7FinalState : AuthState :=
  List.foldl authReducer (authReducer INITIAL_STATE (Action.registerStart c7Credentials))
    (putsOf (registerWithCredentials c7RegisterCap c7Credentials))

/-- A login capability that always resolves to `sampleUser`. -/
def sampleLogInCap : String → String → Except ErrorInfo User :=
  fun _ _ => Except.ok sampleUser

/-- A login capability that always rejects with "boom". -/
def failLogInCap : String → String → Except ErrorInfo User :=
  fun _ _ => Except.error "boom"

/-! ## Theorems -/

/-- Claim C1: for either lane, when a second start is dispatched while the
first invocation is still pending, the superseded invocation's result is
never dispatched, whichever order the two capability calls complete in:
the lane's whole output is exactly the single terminal action of the
latest start. -/
theorem takeLatest_latest_start_wins :
    ∀ (c1 c2 : Credentials) (r1 r2 : Except ErrorInfo User)
      (q1 q2 : Except ErrorInfo Unit),
      runLane logInTerminalPuts
          [LaneEvent.start c1, LaneEvent.start c2,
           LaneEvent.complete 0 r1, LaneEvent.complete 1 r2]
        = logInTerminalPuts c2 r2 ∧
      runLane logInTerminalPuts
          [LaneEvent.start c1, LaneEvent.start c2,
           LaneEvent.complete 1 r2, LaneEvent.complete 0 r1]
        = logInTerminalPuts c2 r2 ∧
      (∃ a, logInTerminalPuts c2 r2 = [a] ∧ isLogInTerminal a = true) ∧
      runLane registerTerminalPuts
          [LaneEvent.start c1, LaneEvent.start c2,
           LaneEvent.complete 0 q1, LaneEvent.complete 1 q2]
        = registerTerminalPuts c2 q2 ∧
      runLane registerTerminalPuts
          [LaneEvent.start c1, LaneEvent.start c2,
           LaneEvent.complete 1 q2, LaneEvent.complete 0 q1]
        = registerTerminalPuts c2 q2 ∧
      (∃ a, registerTerminalPuts c2 q2 = [a] ∧ isRegisterTerminal a = true) := by
  intro c1 c2 r1 r2 q1 q2
  refine ⟨?_, ?_, ?_, ?_, ?_, ?_⟩
  · simp [runLane, runLaneFrom, laneStep, initLane]
  · simp [runLane, runLaneFrom, laneStep, initLane]
  · cases r2 with
    | ok u => exact ⟨Action.logInSuccess u, rfl, rfl⟩
    | error e => exact ⟨Action.logInFailure e, rfl, rfl⟩
  · simp [runLane, runLaneFrom, laneStep, initLane]
  · simp [runLane, runLaneFrom, laneStep, initLane]
  · cases q2 with
    | ok u => exact ⟨Action.registerSuccess _, rfl, rfl⟩
    | error e => exact ⟨Action.registerFailure e, rfl, rfl⟩

/-- Claim C3: each saga body dispatches exactly one terminal action of its
lane, whatever the capability does; and when the capability rejects, that
terminal action is the corresponding failure action carrying the error
payload. -/
theorem saga_failure_yields_single_terminal :
    ∀ (logInCap : String → String → Except ErrorInfo User)
      (registerCap : String → String → String → String → Except ErrorInfo Unit)
      (c : Credentials),
      (∃ a, putsOf (logInWithCredentials logInCap c.email c.password) = [a] ∧
          isLogInTerminal a = true) ∧
      (∃ a, putsOf (registerWithCredentials registerCap c) = [a] ∧
          isRegisterTerminal a = true) ∧
      (∀ e, logInCap c.email c.password = Except.error e →
          putsOf (logInWithCredentials logInCap c.email c.password)
            = [Action.logInFailure e]) ∧
      (∀ e, registerCap c.email c.password c.firstName c.lastName = Except.error e →
          putsOf (registerWithCredentials registerCap c)
            = [Action.registerFailure e]) := by
  intro lc rc c
  refine ⟨?_, ?_, ?_, ?_⟩
  · cases h : lc c.email c.password with
    | ok u =>
        refine ⟨Action.logInSuccess u, ?_, rfl⟩
        unfold logInWithCredentials
        rw [h]
        rfl
    | error e =>
        refine ⟨Action.logInFailure e, ?_, rfl⟩
        unfold logInWithCredentials
        rw [h]
        rfl
  · cases h : rc c.email c.password c.firstName c.lastName with
    | ok u =>
        refine ⟨Action.registerSuccess
          { email := c.email, password := c.password,
            firstName := c.firstName, lastName := c.lastName }, ?_, rfl⟩
        unfold registerWithCredentials
        rw [h]
        rfl
    | error e =>
        refine ⟨Action.registerFailure e, ?_, rfl⟩
        unfold registerWithCredentials
        rw [h]
        rfl
  · intro e h
    unfold logInWithCredentials
    rw [h]
    rfl
  · intro e h
    unfold registerWithCredentials
    rw [h]
    rfl

/-- Witness for claim C3: with a capability that rejects with "boom", the
login saga dispatches exactly `logInFailure "boom"`. -/
theorem saga_failure_yields_single_terminal_witness :
    failLogInCap sampleCredentials.email sampleCredentials.password
        = Except.error "boom" ∧
      putsOf (logInWithCredentials failLogInCap
          sampleCredentials.email sampleCredentials.password)
        = [Action.logInFailure "boom"] :=
  ⟨rfl,
    (saga_failure_yields_single_terminal failLogInCap c7RegisterCap
        sampleCredentials).2.2.1 "boom" rfl⟩

/-- Claim C4: `logInAfterRegister` on a `registerSuccess` payload is
exactly one run of the canonical login saga on the payload's email and
password — its trace is that saga's trace, with a single login-capability
call carrying that email and password — and when the capability resolves
to `u`, folding its dispatched actions through the reducer makes
`currentUser = u` from any state. -/
theorem registerSuccess_triggers_canonical_logIn :
    ∀ (logInCap : String → String → Except ErrorInfo User) (c : Credentials),
      logInAfterRegister logInCap c
          = logInWithCredentials logInCap c.email c.password ∧
      logInCallsOf (logInAfterRegister logInCap c) = [(c.email, c.password)] ∧
      ∀ (u : User) (s : AuthState), logInCap c.email c.password = Except.ok u →
        (List.foldl authReducer s (putsOf (logInAfterRegister logInCap c))).currentUser
          = some u := by
  intro lc c
  refine ⟨rfl, ?_, ?_⟩
  · cases h : lc c.email c.password with
    | ok u =>
        unfold logInAfterRegister logInWithCredentials
        rw [h]
        rfl
    | error e =>
        unfold logInAfterRegister logInWithCredentials
        rw [h]
        rfl
  · intro u s h
    unfold logInAfterRegister logInWithCredentials
    rw [h]
    rfl

/-- Witness for claim C4: with a capability resolving to `sampleUser`,
the auto-login after registration ends with `currentUser = sampleUser`. -/
theorem registerSuccess_triggers_canonical_logIn_witness :
    sampleLogInCap sampleCredentials.email sampleCredentials.password
        = Except.ok sampleUser ∧
      (List.foldl authReducer INITIAL_STATE
          (putsOf (logInAfterRegister sampleLogInCap sampleCredentials))).currentUser
        = some sampleUser :=
  ⟨rfl,
    (registerSuccess_triggers_canonical_logIn sampleLogInCap
        sampleCredentials).2.2 sampleUser INITIAL_STATE rfl⟩

/-- Claim C7, counterexample: in the register-failure scenario the final
state does not satisfy the claimed conjunction, because its
`registerSuccess` key is absent (never written), not present with value
`false`. -/
theorem c7_registerSuccess_not_false_cex :
    ¬(c7FinalState.error = some "duplicate email" ∧
      c7FinalState.registerSuccess = some false) := by
  decide

/-- Claim C7 (amended): the register-failure scenario ends with
`error = "duplicate email"`, `currentUser` absent, and the
`registerSuccess` key absent (reading it gives `undefined`, not `false`). -/
theorem c7_final_state :
    c7FinalState = { currentUser := none, error := some "duplicate email",
                     registerSuccess := none } := by
  decide

/-- Claim C2, counterexample: the REGISTER_SUCCESS case of the reducer
does not clear `error`. In the reachable state obtained by dispatching
`registerFailure "boom"` and then `registerSuccess`, the error survives,
so it is false that every successful terminal action clears `error`. -/
theorem registerSuccess_does_not_clear_error_cex :
    (List.foldl authReducer INITIAL_STATE
      [Action.registerFailure "boom", Action.registerSuccess sampleCredentials]).error
      = some "boom" := by
  decide

/-- Claim C2 (amended): in the reducer, `currentUser` is set only by
`logInSuccess` and cleared only by `logOut`; `error` is cleared by
`logInSuccess` and set by `logInFailure` / `registerFailure`; but
`registerSuccess` leaves `error` unchanged (it is not cleared by that
successful terminal action). -/
theorem authReducer_state_invariants :
    ∀ (s : AuthState) (a : Action),
      (∀ u : User, (authReducer s a).currentUser = some u →
        s.currentUser = some u ∨ a = Action.logInSuccess u) ∧
      (s.currentUser ≠ none → (authReducer s a).currentUser = none →
        a = Action.logOut) ∧
      (∀ u : User, (authReducer s (Action.logInSuccess u)).error = none) ∧
      (∀ e : ErrorInfo, (authReducer s (Action.logInFailure e)).error = some e) ∧
      (∀ e : ErrorInfo, (authReducer s (Action.registerFailure e)).error = some e) ∧
      (∀ c : Credentials, (authReducer s (Action.registerSuccess c)).error = s.error) := by
  intro s a
  refine ⟨?_, ?_, fun u => rfl, fun e => rfl, fun e => rfl, fun c => rfl⟩
  · intro u hu
    cases a with
    | logInStart c => exact Or.inl hu
    | logInSuccess u' => exact Or.inr (congrArg Action.logInSuccess (Option.some.inj hu))
    | logInFailure e => exact Or.inl hu
    | registerStart c => exact Or.inl hu
    | registerSuccess c => exact Or.inl hu
    | registerFailure e => exact Or.inl hu
    | logOut => exact Option.noConfusion hu
    | other => exact Or.inl hu
  · intro hne h0
    cases a with
    | logInStart c => exact absurd h0 hne
    | logInSuccess u' => exact Option.noConfusion h0
    | logInFailure e => exact absurd h0 hne
    | registerStart c => exact absurd h0 hne
    | registerSuccess c => exact absurd h0 hne
    | registerFailure e => exact absurd h0 hne
    | logOut => rfl
    | other => exact absurd h0 hne

/-- Witness for the amended claim C2: the clear-only-by-logOut part at a
concrete logged-in state. -/
theorem authReducer_state_invariants_witness :
    ({ currentUser := some sampleUser, error := none,
       registerSuccess := none } : AuthState).currentUser ≠ none ∧
      Action.logOut = Action.logOut :=
  ⟨fun h => Option.noConfusion h,
    (authReducer_state_invariants
        { currentUser := some sampleUser, error := none, registerSuccess := none }
        Action.logOut).2.1
      (fun h => Option.noConfusion h) rfl⟩

/-- Claim C5, counterexample: after dispatching `logOut`, the state is
`INITIAL_STATE`, whose `registerSuccess` key is absent — it does not equal
a state carrying `registerSuccess := some false`, so the claimed target
state `\x7bcurrentUser: absent, error: absent, registerSuccess: false\x7d`
is not reached exactly. -/
theorem logOut_state_has_no_registerSuccess_field_cex :
    List.foldl authReducer INITIAL_STATE [Action.logOut]
      ≠ { currentUser := none, error := none, registerSuccess := some false } := by
  decide

/-- Claim C5 (amended): folding any action sequence from any state and
then applying `logOut` yields exactly `INITIAL_STATE`, which has
`currentUser` and `error` absent and no `registerSuccess` key at all. -/
theorem logOut_resets_to_initial_state :
    ∀ (acts : List Action) (s : AuthState),
      authReducer (List.foldl authReducer s acts) Action.logOut = INITIAL_STATE ∧
      INITIAL_STATE.currentUser = none ∧ INITIAL_STATE.error = none ∧
      INITIAL_STATE.registerSuccess = none :=
  fun _ _ => ⟨rfl, rfl, rfl, rfl⟩

/-- Claim C6: from any state, `logInSuccess u` then `logInFailure e`
leaves `currentUser = u` (the failure does not touch it) and sets
`error = e`. -/
theorem logInSuccess_then_logInFailure_frame :
    ∀ (s : AuthState) (u : User) (e : ErrorInfo),
      (authReducer (authReducer s (Action.logInSuccess u)) (Action.logInFailure e)).currentUser
          = some u ∧
      (authReducer (authReducer s (Action.logInSuccess u)) (Action.logInFailure e)).error
          = some e :=
  fun _ _ _ => ⟨rfl, rfl⟩

/-- Claim C8: the reducer is a total function of the pair (state, action)
alone — every constructor of `Action` is handled — and on every input its
value is exactly the one prescribed by the spec's §4.1 transition table
(`specReducerTable`); in this value semantics the input state is never
mutated, each branch building its result as a fresh record. -/
theorem authReducer_total_matches_spec_table :
    ∀ (s : AuthState) (a : Action), authReducer s a = specReducerTable s a := by
  intro s a
  cases a <;> rfl

/-- Claim C9: calling the reducer with an absent state argument (the JS
default parameter, as the store does with its INIT action, here `other`)
returns `INITIAL_STATE`, a state with `currentUser` and `error` null and
no `registerSuccess` field at all. -/
theorem authReducer_absent_state_returns_initial :
    authReducerWithDefault none Action.other = INITIAL_STATE ∧
      (authReducerWithDefault none Action.other).currentUser = none ∧
      (authReducerWithDefault none Action.other).error = none ∧
      (authReducerWithDefault none Action.other).registerSuccess = none :=
  ⟨rfl, rfl, rfl, rfl⟩

/-- Claim C10: once `registerSuccess` is `some true`, every action other
than `logOut` (in particular `registerFailure`, `logInSuccess`,
`logInFailure`) leaves it `some true`. -/
theorem registerSuccess_flag_persists :
    ∀ (s : AuthState) (a : Action),
      s.registerSuccess = some true → a ≠ Action.logOut →
      (authReducer s a).registerSuccess = some true := by
  intro s a h hne
  cases a with
  | logInStart c => exact h
  | logInSuccess u => exact h
  | logInFailure e => exact h
  | registerStart c => exact h
  | registerSuccess c => rfl
  | registerFailure e => exact h
  | logOut => exact absurd rfl hne
  | other => exact h

/-- Witness for claim C10: a concrete state with the flag set, hit with a
`registerFailure`, keeps the flag. -/
theorem registerSuccess_flag_persists_witness :
    ({ currentUser := none, error := none,
       registerSuccess := some true } : AuthState).registerSuccess = some true ∧
      (authReducer
        { currentUser := none, error := none, registerSuccess := some true }
        (Action.registerFailure "boom")).registerSuccess = some true :=
  ⟨rfl,
    registerSuccess_flag_persists
      { currentUser := none, error := none, registerSuccess := some true }
      (Action.registerFailure "boom") rfl (fun h => Action.noConfusion h)⟩

end ReduxAuth
